import Mathlib

/-!
Verification of the vhbprodok_datascience repository.

The repository is a set of six Jupyter notebooks, each a flat straight-line
script of library calls.  The embedding below has two layers:

1. a per-statement transcription of every notebook as a list of script
   statements (inductive type Stmt), one entry per source statement in
   source order, used for the structural claims (which notebooks load data,
   plot, fit models, report metrics, write files, install error handlers);

2. faithful functional models of the individual computations the claims
   are about: numpy linspace and python range, sklearn mean_squared_error,
   the LassoCV grid selection, the train_test_split call, the stacking
   combination, and the preprocessing data flow, with the opaque library
   internals (CV error curves, RNG permutation streams, encoder state)
   taken as explicit function parameters.
-/

/-- Python range a b, the list a, a+1, ..., b-1. -/
def pyRange (a b : Nat) : List Nat := List.range' a (b - a)

/-- One statement of a notebook script.  Each constructor stands for one
kind of source statement; the string arguments record the concrete call. -/
inductive Stmt where
  /-- pd.read_csv of a local path or URL. -/
  | loadCSV (path : String)
  /-- a remote API query that returns a dataset (statsbombpy). -/
  | apiQuery (call : String)
  /-- a seaborn/matplotlib plotting call that draws data. -/
  | plot (call : String)
  /-- a model-fitting call into a statistics/ML library. -/
  | fitModel (lib call : String)
  /-- printing or displaying a standard evaluation metric. -/
  | reportMetric (metric : String)
  /-- DataFrame.to_csv, creating or overwriting a file. -/
  | writeCSV (path : String)
  /-- warnings.simplefilter or warnings.filterwarnings with ignore. -/
  | suppressWarnings
  /-- a python try/except block (no notebook contains one). -/
  | tryHandler (descr : String)
  /-- any other statement: column selection, train/test split, encoding,
  prediction, inspection such as head/shape/describe, plot styling. -/
  | other (descr : String)
deriving DecidableEq

open Stmt

/-- ames_housing/linear_models.ipynb, statement by statement. -/
def linear_models : List Stmt := [
  suppressWarnings,                                      -- warnings.simplefilter
  other "plt.style.use fivethirtyeight",
  loadCSV "data/train.csv",                              -- data_train = pd.read_csv
  other "data_train.head",
  other "data_train.shape",
  other "data_train.columns",
  other "data_train = data_train[selected 10 columns]",
  other "data_train.head",
  other "data_train[SalePrice].describe",
  plot "sns.displot SalePrice kde",
  plot "sns.displot GrLivArea kde",
  plot "sns.catplot Neighborhood count",
  plot "sns.relplot LotArea vs SalePrice",
  plot "sns.regplot GrLivArea vs SalePrice",
  plot "sns.catplot OverallQual vs SalePrice box",
  plot "sns.catplot OverallCond vs SalePrice violin",
  fitModel "statsmodels" "smf.ols SalePrice ~ GrLivArea",            -- mod_01
  reportMetric "R2 via mod_01.summary",
  fitModel "statsmodels" "smf.ols SalePrice ~ GrLivArea + BedroomAbvGr",  -- mod_03
  reportMetric "R2 via mod_03.summary2",
  fitModel "statsmodels" "smf.ols SalePrice ~ GrLivArea + BedroomAbvGr + HouseStyle",
  reportMetric "R2 via mod_04.summary2",
  other "data_train[HouseStyle].value_counts",
  fitModel "statsmodels" "smf.ols SalePrice ~ GrLivArea * LotArea",
  reportMetric "R2 via mod_05.summary2",
  fitModel "statsmodels" "smf.ols SalePrice ~ GrLivArea * C OverallQual",
  reportMetric "R2 via mod_05.summary2",
  fitModel "statsmodels" "smf.ols np.log SalePrice ~ BedroomAbvGr",  -- mod_07a
  reportMetric "R2 via mod_07a.summary",
  fitModel "statsmodels" "smf.ols SalePrice ~ BedroomAbvGr",         -- mod_07b
  reportMetric "R2 via mod_07b.summary",
  fitModel "statsmodels" "smf.ols SalePrice ~ GrLivArea + GrLivArea^2",
  reportMetric "R2 via mod_08.summary",
  loadCSV "data/test.csv",                               -- data_test = pd.read_csv
  other "data_test.head",
  other "preds = mod_03.predict data_test",
  other "preds",
  other "my_submission = pd.DataFrame HouseId SalePrice",
  other "my_submission.head",
  writeCSV "submission.csv"]                             -- my_submission.to_csv

/-- ames_housing/lasso.ipynb, statement by statement. -/
def lasso : List Stmt := [
  suppressWarnings,                                      -- warnings.simplefilter
  other "plt.style.use fivethirtyeight",
  loadCSV "https://raw.githubusercontent.com/olivermueller/vhbprodok_datascience/main/ames_housing/data/train.csv",
  other "data.head",
  other "data.drop house_id YrSold MoSold SaleCondition SaleType",
  other "X y column split",
  other "train_test_split test_size 0.2 random_state 42",
  other "select_dtypes categorical and numerical features",
  other "OneHotEncoder fit on X_train, transform X_train and X_test",
  other "X_train_cat.head",
  other "StandardScaler fit on X_train, transform X_train and X_test",
  other "X_train_num.head",
  other "pd.concat num and cat",
  other "X_train.head",
  fitModel "sklearn" "Lasso alpha 1",                    -- lasso_mod.fit
  reportMetric "R2 on training set",
  reportMetric "RMSE on training set",
  reportMetric "R2 on test set",
  reportMetric "RMSE on test set",
  fitModel "sklearn" "Lasso loop over 100 alphas from np.linspace 0 1000 100",
  reportMetric "rmse per alpha collected in results",
  other "results_df = pd.DataFrame results",
  plot "sns.lineplot coefficients vs alpha",
  plot "sns.lineplot rmse vs alpha",
  fitModel "sklearn" "LassoCV cv 5 alphas random_state 42",   -- lasso_mod_cv.fit
  other "lasso_mod_cv.alpha_",
  fitModel "sklearn" "Lasso alpha lasso_mod_cv.alpha_",  -- lasso_mod_tuned.fit
  reportMetric "R2 on training set",
  reportMetric "RMSE on training set",
  reportMetric "R2 on test set",
  reportMetric "RMSE on test set",
  other "X_train.shape",
  other "PolynomialFeatures interaction_only fit_transform",
  other "X_train_interact.shape",
  other "X_train_interact.head",
  fitModel "sklearn" "LassoCV cv 2 alphas np.linspace 0 10000 100 random_state 42",
  fitModel "sklearn" "Lasso alpha lasso_mod_interact_cv.alpha_",
  reportMetric "R2 on training set",
  reportMetric "RMSE on training set",
  reportMetric "R2 on test set",
  reportMetric "RMSE on test set"]      -- value computed without squared False

/-- ames_housing/stepwise_feature_selection.ipynb, statement by statement. -/
def stepwise_feature_selection : List Stmt := [
  suppressWarnings,                                      -- warnings.simplefilter
  other "plt.style.use fivethirtyeight",
  loadCSV "https://raw.githubusercontent.com/olivermueller/vhbprodok_datascience/main/ames_housing/data/train.csv",
  other "data.head",
  other "data.shape",
  other "data.columns",
  other "data = data[selected 8 columns]",
  other "data.head",
  other "X y column split",
  other "train_test_split test_size 0.2 random_state 42",
  fitModel "sklearn" "SequentialFeatureSelector LinearRegression forward 3 cv 5",
  other "sfs_fwd.get_feature_names_out",
  fitModel "sklearn" "LinearRegression on selected features",
  reportMetric "rmse of model with selected features",
  fitModel "sklearn" "loop i in range 1 7 SequentialFeatureSelector and LinearRegression",
  reportMetric "rmse per n_features collected in log",
  other "log_df = pd.DataFrame log",
  plot "sns.relplot n_features vs rmse line"]

/-- micro_mortgages/stacking.ipynb, statement by statement.  Note that
plt.style.use is the only matplotlib call: the notebook draws no plot. -/
def stacking : List Stmt := [
  suppressWarnings,                                      -- warnings.simplefilter
  other "plt.style.use fivethirtyeight",
  loadCSV "https://raw.githubusercontent.com/olivermueller/vhbprodok_datascience/main/micro_mortgages/data/micromortgage.csv",
  other "data.head",
  other "data.drop ID and Tier to string",
  other "X y column split",
  other "train_test_split test_size 0.2 random_state 42",
  other "select_dtypes categorical and numerical features",
  other "categorical_features",
  other "numerical_features",
  other "OneHotEncoder fit on X_train, transform X_train and X_test",
  other "X_train_cat.head",
  other "StandardScaler fit on X_train, transform X_train and X_test",
  other "X_train_num.head",
  other "pd.concat num and cat",
  fitModel "sklearn" "GridSearchCV LogisticRegression C logspace cv 5",  -- model_lasso_tuned.fit
  other "pred_lasso_label and pred_lasso_proba",
  reportMetric "classification_report lasso",
  reportMetric "roc_auc_score lasso",
  fitModel "sklearn" "GridSearchCV RandomForestClassifier grid cv 5",    -- model_rf_tuned.fit
  other "pred_rf_label and pred_rf_proba",
  reportMetric "classification_report rf",
  reportMetric "roc_auc_score rf",
  other "pred_final_proba = mean of pred_lasso_proba and pred_rf_proba",
  reportMetric "roc_auc_score stacked"]

/-- football_shots/retrieve_data_from_statsbomb_api.ipynb, statement by
statement.  The notebook only retrieves and inspects data: it contains no
plotting call, fits no model and reports no metric. -/
def retrieve_data_from_statsbomb_api : List Stmt := [
  suppressWarnings,                                      -- warnings.filterwarnings
  apiQuery "sb.competition_events Germany Bundesliga 2015-2016 male split",
  other "grouped_events.keys",
  other "shots = grouped_events[shots]",
  other "shots.shape",
  other "shots.head",
  other "shots.columns",
  other "shots.iloc 0",
  other "shots.iloc 0 shot_freeze_frame",
  other "shots[shot_outcome].value_counts"]

/-- The unnamed notebook src/unnamed/part_000 (the xG notebook): its code
cells are identical to the football-shots retrieval notebook. -/
def part_000 : List Stmt := retrieve_data_from_statsbomb_api

/-- All six notebooks of the repository, with their paths. -/
def notebooks : List (String × List Stmt) := [
  ("ames_housing/lasso.ipynb", lasso),
  ("ames_housing/linear_models.ipynb", linear_models),
  ("ames_housing/stepwise_feature_selection.ipynb", stepwise_feature_selection),
  ("football_shots/retrieve_data_from_statsbomb_api.ipynb", retrieve_data_from_statsbomb_api),
  ("micro_mortgages/stacking.ipynb", stacking),
  ("unnamed/part_000", part_000)]

/-- Does the script load a dataset (CSV read or API query)? -/
def loadsDataset (nb : List Stmt) : Bool :=
  nb.any fun s => match s with
    | .loadCSV _ => true
    | .apiQuery _ => true
    | _ => false

/-- Does the script contain at least one plotting call? -/
def hasVisualization (nb : List Stmt) : Bool :=
  nb.any fun s => match s with
    | .plot _ => true
    | _ => false

/-- Does the script fit at least one model through a library call? -/
def fitsModel (nb : List Stmt) : Bool :=
  nb.any fun s => match s with
    | .fitModel _ _ => true
    | _ => false

/-- Does the script report at least one standard evaluation metric? -/
def reportsMetric (nb : List Stmt) : Bool :=
  nb.any fun s => match s with
    | .reportMetric _ => true
    | _ => false

/-- The per-notebook property asserted by the spec sentence behind C1. -/
def specWorkflow (nb : List Stmt) : Bool :=
  loadsDataset nb && hasVisualization nb && fitsModel nb && reportsMetric nb

/-- The CSV files a script writes, in order. -/
def csvWrites (nb : List Stmt) : List String :=
  nb.filterMap fun s => match s with
    | .writeCSV p => some p
    | _ => none

/-- The CSV files a script reads, in order. -/
def csvReads (nb : List Stmt) : List String :=
  nb.filterMap fun s => match s with
    | .loadCSV p => some p
    | _ => none

/-- Is the statement a try/except block? -/
def isTryHandler (s : Stmt) : Bool :=
  match s with
  | .tryHandler _ => true
  | _ => false

/-- Straight-line execution of a handler-free script: each statement either
succeeds or raises, and the first raised error aborts the run unchanged. -/
def runStmts {E : Type} (eff : Stmt → Except E Unit) : List Stmt → Except E Unit
  | [] => Except.ok ()
  | s :: rest =>
    match eff s with
    | Except.error e => Except.error e
    | Except.ok _ => runStmts eff rest

/-- C1: the claim that every notebook loads a dataset, draws at least one
descriptive visualization, fits at least one model via a library call and
reports at least one standard evaluation metric is FALSE: the football-shots
retrieval notebook (and its unnamed copy) draws no plot, fits no model and
reports no metric, and the stacking notebook draws no plot. -/
theorem C1_counterexample :
    ¬ (∀ nb ∈ notebooks, specWorkflow nb.2 = true) := by decide

/-- C1 amended: every notebook loads a dataset; the three ames_housing
notebooks additionally visualize, fit models and report metrics; the
stacking notebook fits models and reports metrics but draws no plot; the
football-shots retrieval notebook and its identical unnamed copy only load
and inspect data, drawing no plot, fitting no model, reporting no metric. -/
theorem C1_amended_workflow :
    (∀ nb ∈ notebooks, loadsDataset nb.2 = true) ∧
    specWorkflow lasso = true ∧
    specWorkflow linear_models = true ∧
    specWorkflow stepwise_feature_selection = true ∧
    (fitsModel stacking && reportsMetric stacking) = true ∧
    hasVisualization stacking = false ∧
    hasVisualization retrieve_data_from_statsbomb_api = false ∧
    fitsModel retrieve_data_from_statsbomb_api = false ∧
    reportsMetric retrieve_data_from_statsbomb_api = false ∧
    part_000 = retrieve_data_from_statsbomb_api := by decide

/-- C5: across all six notebooks the only file created or modified is the
submission CSV written at the end of the linear-models notebook, and no
notebook writes to a file it reads as input. -/
theorem C5_only_write_is_submission :
    (notebooks.map fun nb => csvWrites nb.2).flatten = ["submission.csv"] ∧
    (∀ nb ∈ notebooks, ∀ p ∈ csvWrites nb.2, p ∉ csvReads nb.2) := by decide

/-- C6: no notebook contains a try/except or any other error-recovery
construct (each does suppress warnings), and under the straight-line
semantics of such a handler-free script any error raised by a statement
propagates unchanged to the top level and aborts the run. -/
theorem C6_no_failure_handling :
    (∀ nb ∈ notebooks, nb.2.filter isTryHandler = [] ∧ Stmt.suppressWarnings ∈ nb.2) ∧
    (∀ (E : Type) (eff : Stmt → Except E Unit) (pre post : List Stmt) (s : Stmt) (e : E),
      (∀ t ∈ pre, eff t = Except.ok ()) → eff s = Except.error e →
      runStmts eff (pre ++ s :: post) = Except.error e) := by
  constructor
  · decide
  · intro E eff pre post s e hpre hs
    induction pre with
    | nil => simp [runStmts, hs]
    | cons t rest ih =>
      have ht : eff t = Except.ok () := hpre t (by simp)
      simp only [List.cons_append, runStmts, ht]
      exact ih fun x hx => hpre x (by simp [hx])

/-- C6, witnessed on a concrete script and effect function: a two-statement
script whose second statement raises aborts with exactly that error. -/
theorem C6_no_failure_handling_witness :
    runStmts
      (fun s => if isTryHandler s then Except.ok () else Except.error "TypeError")
      ([Stmt.tryHandler "t"] ++ Stmt.suppressWarnings :: []) =
      Except.error "TypeError" :=
  C6_no_failure_handling.2 String _ [Stmt.tryHandler "t"] [] Stmt.suppressWarnings
    "TypeError" (by intro t ht; rw [List.mem_singleton] at ht; subst ht; rfl) rfl

/-- sklearn.metrics.mean_squared_error with the default squared=True:
the mean of the squared differences between labels and predictions. -/
def mean_squared_error (y p : List ℚ) : ℚ :=
  (List.zipWith (fun a b => (a - b) ^ 2) y p).sum / (y.length : ℚ)

/-- r is the root mean squared error of (y, p): the nonnegative square
root of the mean squared error (what mean_squared_error returns when it is
called with squared=False). -/
def isRootMSE (y p : List ℚ) (r : ℚ) : Prop :=
  0 ≤ r ∧ r ^ 2 = mean_squared_error y p

instance (y p : List ℚ) (r : ℚ) : Decidable (isRootMSE y p r) :=
  inferInstanceAs (Decidable (_ ∧ _))

/-- Python keyword-argument calling convention: a call raises TypeError
unless every keyword passed is accepted by the callee. -/
def pyKwCall (accepted passed : List String) : Except String Unit :=
  if passed.all (fun k => accepted.contains k) then Except.ok ()
  else Except.error "TypeError"

/-- The keyword arguments accepted by sklearn regressor predict (beyond the
positional feature matrix): none. -/
def predictKeywords : List String := []

/-- The keyword arguments accepted by sklearn.metrics.mean_squared_error
beyond the two label arrays. -/
def meanSquaredErrorKeywords : List String :=
  ["sample_weight", "multioutput", "squared"]

/-- One print site whose label declares a root mean squared error.
squaredFalseToMSE records whether the source passes squared=False to
mean_squared_error at that site; kwargsOnPredict records the keyword
arguments the source passes to the predict call feeding the site. -/
structure RmseSite where
  notebook : String
  label : String
  squaredFalseToMSE : Bool
  kwargsOnPredict : List String
deriving DecidableEq

/-- Every RMSE-labeled computation site of the LASSO and the stepwise
feature selection notebooks, transcribed from the source in order. -/
def lasso_rmse_train_1 : RmseSite :=
  ⟨"ames_housing/lasso.ipynb", "RMSE on training set", true, []⟩

def lasso_rmse_test_1 : RmseSite :=
  ⟨"ames_housing/lasso.ipynb", "RMSE on test set", true, []⟩

def lasso_rmse_loop : RmseSite :=
  ⟨"ames_housing/lasso.ipynb", "rmse", true, []⟩

def lasso_rmse_train_tuned : RmseSite :=
  ⟨"ames_housing/lasso.ipynb", "RMSE on training set", true, []⟩

def lasso_rmse_test_tuned : RmseSite :=
  ⟨"ames_housing/lasso.ipynb", "RMSE on test set", true, []⟩

def lasso_rmse_train_interact : RmseSite :=
  ⟨"ames_housing/lasso.ipynb", "RMSE on training set", true, []⟩

/-- The test-set branch of the interaction-model evaluation cell: the
source reads pred_test = lasso_mod_interact_tuned.predict(X_test_interact,
squared=False) followed by rmse_test = mean_squared_error(y_test,
pred_test), i.e. the squared=False keyword sits on the predict call and
the mean_squared_error call uses the squared=True default. -/
def lasso_rmse_test_interact : RmseSite :=
  ⟨"ames_housing/lasso.ipynb", "RMSE on test set", false, ["squared"]⟩

def stepwise_rmse_selected : RmseSite :=
  ⟨"ames_housing/stepwise_feature_selection.ipynb",
   "rmse of model with selected features", true, []⟩

def stepwise_rmse_loop : RmseSite :=
  ⟨"ames_housing/stepwise_feature_selection.ipynb", "rmse", true, []⟩

def rmseSites : List RmseSite :=
  [lasso_rmse_train_1, lasso_rmse_test_1, lasso_rmse_loop,
   lasso_rmse_train_tuned, lasso_rmse_test_tuned, lasso_rmse_train_interact,
   lasso_rmse_test_interact, stepwise_rmse_selected, stepwise_rmse_loop]

/-- C2: the claim fails at exactly one site, the test-set branch of the
interaction-model evaluation cell of the LASSO notebook.  There the
squared=False keyword was slipped onto the predict call, which accepts no
such keyword (so the cell raises TypeError at run time), and the
mean_squared_error call is left with its squared=True default, so the value
bound to rmse_test is the mean squared error, not its square root: on the
data y = [0], p = [2] it computes 4 while the root mean squared error is 2.
Every other RMSE-labeled site passes squared=False to mean_squared_error. -/
theorem C2_rmse_sites :
    (∀ site ∈ rmseSites, site ≠ lasso_rmse_test_interact →
        site.squaredFalseToMSE = true ∧ site.kwargsOnPredict = []) ∧
    lasso_rmse_test_interact.squaredFalseToMSE = false ∧
    lasso_rmse_test_interact.kwargsOnPredict = ["squared"] ∧
    pyKwCall predictKeywords lasso_rmse_test_interact.kwargsOnPredict =
      Except.error "TypeError" ∧
    pyKwCall meanSquaredErrorKeywords ["squared"] = Except.ok () ∧
    mean_squared_error [0] [2] = 4 ∧
    ¬ isRootMSE [0] [2] (mean_squared_error [0] [2]) ∧
    isRootMSE [0] [2] 2 := by
  refine ⟨?_, rfl, rfl, rfl, rfl, by norm_num [mean_squared_error], ?_, ?_⟩
  · decide
  · norm_num [isRootMSE, mean_squared_error]
  · norm_num [isRootMSE, mean_squared_error]

/-- stacking.ipynb: pred_final_proba = (pred_lasso_proba + pred_rf_proba) / 2,
the numpy elementwise operation on the two positive-class probability
vectors returned by the two tuned models on the test observations. -/
def pred_final_proba (pred_lasso_proba pred_rf_proba : List ℚ) : List ℚ :=
  List.zipWith (fun a b => (a + b) / 2) pred_lasso_proba pred_rf_proba

/-- C3: for every test observation i, the final stacked positive-class
probability is the equal-weight arithmetic mean of the tuned logistic
regression probability and the tuned random forest probability at i. -/
theorem C3_stacked_probability (lr rf : List ℚ) (i : ℕ)
    (h1 : i < lr.length) (h2 : i < rf.length) :
    (pred_final_proba lr rf)[i]? = some ((lr[i] + rf[i]) / 2) := by
  rw [pred_final_proba, List.getElem?_zipWith_eq_some]
  exact ⟨lr[i], rf[i], List.getElem?_eq_getElem h1, List.getElem?_eq_getElem h2, rfl⟩

/-- C3 witnessed at concrete probability vectors and observation 0. -/
theorem C3_stacked_probability_witness :
    (pred_final_proba [1/2, 1] [1/4, 0])[0]? = some (3/8 : ℚ) := by
  have h := C3_stacked_probability [1/2, 1] [1/4, 0] 0 (by norm_num) (by norm_num)
  norm_num at h
  exact h

/-- numpy.linspace start stop num (default endpoint=True): num evenly
spaced values from start to stop inclusive. -/
def linspace (start stop : ℚ) (num : ℕ) : List ℚ :=
  (List.range num).map fun i : ℕ => start + (stop - start) * (i : ℚ) / ((num : ℚ) - 1)

/-- The alpha grid of the LASSO notebook: alphas = np.linspace(0, 1000, 100). -/
def lassoAlphas : List ℚ := linspace 0 1000 100

/-- The configuration of a sklearn LassoCV estimator. -/
structure LassoCVConfig where
  cv : ℕ
  alphas : List ℚ
  random_state : ℕ

/-- lasso_mod_cv = LassoCV(cv=5, alphas=alphas, random_state=42). -/
def lasso_mod_cv : LassoCVConfig := ⟨5, lassoAlphas, 42⟩

/-- The alpha_ attribute LassoCV exposes after fitting: the candidate
minimizing the mean cross-validation error, where the error curve cvError
is the opaque outcome of the library's k-fold fitting.  The fold keeps the
first minimizer, returning none only on an empty grid. -/
def cvSelect (cvError : ℚ → ℚ) : List ℚ → Option ℚ
  | [] => none
  | a :: rest =>
    some (rest.foldl (fun best x => if cvError x < cvError best then x else best) a)

/-- lasso_mod_cv.alpha_ for a given cross-validation error curve. -/
def lasso_mod_cv_alpha (cvError : ℚ → ℚ) : Option ℚ :=
  cvSelect cvError lasso_mod_cv.alphas

/-- lasso_mod_tuned = Lasso(alpha=lasso_mod_cv.alpha_): the refit model
takes exactly the cross-validated alpha. -/
def lasso_mod_tuned_alpha (cvError : ℚ → ℚ) : Option ℚ :=
  lasso_mod_cv_alpha cvError

theorem foldl_argmin_mem (err : ℚ → ℚ) (l : List ℚ) (b : ℚ) :
    l.foldl (fun best x => if err x < err best then x else best) b = b ∨
    l.foldl (fun best x => if err x < err best then x else best) b ∈ l := by
  induction l generalizing b with
  | nil => left; rfl
  | cons x xs ih =>
    simp only [List.foldl_cons]
    rcases ih (if err x < err b then x else b) with h | h
    · by_cases hc : err x < err b
      · right; rw [h, if_pos hc]; exact List.mem_cons_self x xs
      · left; rw [h, if_neg hc]
    · right; exact List.mem_cons_of_mem x h

/-- The grid has exactly 100 alpha values. -/
theorem lassoAlphas_length : lassoAlphas.length = 100 := by
  show ((List.range 100).map
    (fun i : ℕ => 0 + (1000 - 0) * (i : ℚ) / ((100 : ℚ) - 1))).length = 100
  rw [List.length_map, List.length_range]

/-- On a nonempty grid, cvSelect returns an element of the grid. -/
theorem cvSelect_mem (err : ℚ → ℚ) (l : List ℚ) (hl : l ≠ []) :
    ∃ a, cvSelect err l = some a ∧ a ∈ l := by
  cases l with
  | nil => exact absurd rfl hl
  | cons x xs =>
    refine ⟨_, rfl, ?_⟩
    rcases foldl_argmin_mem err xs x with h | h
    · rw [h]; exact List.mem_cons_self x xs
    · exact List.mem_cons_of_mem x h

/-- C4: for every cross-validation error curve, hyperparameter selection
returns some alpha from the grid; the tuned model refit on the training
data uses exactly that alpha; the grid is the 100-element
np.linspace(0, 1000, 100); and the cross-validation uses 5 folds. -/
theorem C4_tuned_alpha_from_cv (cvError : ℚ → ℚ) :
    ∃ a, lasso_mod_cv_alpha cvError = some a ∧
      lasso_mod_tuned_alpha cvError = some a ∧
      a ∈ lasso_mod_cv.alphas ∧
      lasso_mod_cv.alphas = lassoAlphas ∧
      lassoAlphas.length = 100 ∧
      lasso_mod_cv.cv = 5 := by
  have hne : lasso_mod_cv.alphas ≠ [] := by
    rw [← List.length_pos]
    rw [show lasso_mod_cv.alphas = lassoAlphas from rfl, lassoAlphas_length]
    norm_num
  obtain ⟨a, ha, hm⟩ := cvSelect_mem cvError lasso_mod_cv.alphas hne
  exact ⟨a, ha, ha, hm, rfl, lassoAlphas_length, rfl⟩

/-- C4 witnessed at a concrete error curve (the identity curve). -/
theorem C4_tuned_alpha_from_cv_witness :
    ∃ a, lasso_mod_cv_alpha id = some a ∧
      lasso_mod_tuned_alpha id = some a ∧
      a ∈ lasso_mod_cv.alphas ∧
      lasso_mod_cv.alphas = lassoAlphas ∧
      lassoAlphas.length = 100 ∧
      lasso_mod_cv.cv = 5 :=
  C4_tuned_alpha_from_cv id

/-- The keyword arguments of the sb.competition_events call in the
football-shots notebook. -/
structure CompetitionEventsArgs where
  country : String
  division : String
  season : String
  gender : String
  split : Bool
deriving DecidableEq

/-- The parameters actually passed in the notebook. -/
def competitionEventsArgs : CompetitionEventsArgs :=
  ⟨"Germany", "1. Bundesliga", "2015/2016", "male", true⟩

/-- With split=True, statsbombpy returns a mapping from event-type name to
a frame of events; the api parameter stands for the remote service. -/
def grouped_events {D : Type} (api : CompetitionEventsArgs → String → D) :
    String → D :=
  api competitionEventsArgs

/-- shots = grouped_events["shots"]. -/
def shotsGroup {D : Type} (api : CompetitionEventsArgs → String → D) : D :=
  grouped_events api "shots"

/-- C7: the football-shots notebook queries the competition-events API with
exactly country Germany, division 1. Bundesliga, season 2015/2016, gender
male and split=True, and extracts exactly the shots group of the result. -/
theorem C7_statsbomb_query :
    competitionEventsArgs =
      ⟨"Germany", "1. Bundesliga", "2015/2016", "male", true⟩ ∧
    (∀ (D : Type) (api : CompetitionEventsArgs → String → D),
      shotsGroup api =
        api ⟨"Germany", "1. Bundesliga", "2015/2016", "male", true⟩ "shots") :=
  ⟨rfl, fun _ _ => rfl⟩

/-- The engineered feature blocks produced by the preprocessing cells of
lasso.ipynb and stacking.ipynb. -/
structure PrepOut (β : Type) where
  X_train_cat : β
  X_test_cat : β
  X_train_num : β
  X_test_num : β

/-- The preprocessing data flow shared by lasso.ipynb and stacking.ipynb:
the categorical and numerical column lists come from
X_train.select_dtypes; enc = OneHotEncoder fit on X_train[categorical]
only; scaler = StandardScaler fit on X_train[numerical] only; both splits
are then transformed with those fitted states.  The library internals
(dtype inspection, column selection, fitting, transforming) are explicit
function parameters. -/
def preprocess {Frame Cols Enc Scal β : Type}
    (select_dtypes_cat select_dtypes_num : Frame → Cols)
    (sel : Frame → Cols → Frame)
    (ohe_fit : Frame → Enc) (ohe_transform : Enc → Frame → β)
    (scaler_fit : Frame → Scal) (scaler_transform : Scal → Frame → β)
    (X_train X_test : Frame) : PrepOut β :=
  let categorical_features := select_dtypes_cat X_train
  let numerical_features := select_dtypes_num X_train
  let enc := ohe_fit (sel X_train categorical_features)
  let scaler := scaler_fit (sel X_train numerical_features)
  ⟨ohe_transform enc (sel X_train categorical_features),
   ohe_transform enc (sel X_test categorical_features),
   scaler_transform scaler (sel X_train numerical_features),
   scaler_transform scaler (sel X_test numerical_features)⟩

/-- Fitting a model on the concatenated engineered training features and
training labels, as every .fit(X_train, y_train) call of the two notebooks
does after the preprocessing. -/
def fitOnTrain {β M T : Type} (concat : β → β → β) (fit : β → T → M)
    (y_train : T) (o : PrepOut β) : M :=
  fit (concat o.X_train_num o.X_train_cat) y_train

/-- C8: the encoder and scaler are fit exclusively on the training split,
so the transformed training features and every model fitted on them are a
function of the training split alone: two runs that differ only in the test
split produce identical X_train_cat, X_train_num and identical fitted
models. -/
theorem C8_train_only_fitting {Frame Cols Enc Scal β M T : Type}
    (sdc sdn : Frame → Cols) (sel : Frame → Cols → Frame)
    (ohe_fit : Frame → Enc) (ohe_tr : Enc → Frame → β)
    (sc_fit : Frame → Scal) (sc_tr : Scal → Frame → β)
    (concat : β → β → β) (fit : β → T → M) (y_train : T)
    (X_train X_test1 X_test2 : Frame) :
    (preprocess sdc sdn sel ohe_fit ohe_tr sc_fit sc_tr X_train X_test1).X_train_cat =
      (preprocess sdc sdn sel ohe_fit ohe_tr sc_fit sc_tr X_train X_test2).X_train_cat ∧
    (preprocess sdc sdn sel ohe_fit ohe_tr sc_fit sc_tr X_train X_test1).X_train_num =
      (preprocess sdc sdn sel ohe_fit ohe_tr sc_fit sc_tr X_train X_test2).X_train_num ∧
    fitOnTrain concat fit y_train
        (preprocess sdc sdn sel ohe_fit ohe_tr sc_fit sc_tr X_train X_test1) =
      fitOnTrain concat fit y_train
        (preprocess sdc sdn sel ohe_fit ohe_tr sc_fit sc_tr X_train X_test2) :=
  ⟨rfl, rfl, rfl⟩

/-- One entry of the comparison log of stepwise_feature_selection.ipynb. -/
structure StepwiseEntry where
  n_features : ℕ
  features : List String
  rmse : ℚ
deriving DecidableEq

/-- The model-comparison loop of stepwise_feature_selection.ipynb: for i in
range(1, 7), fit a forward selector with n_features_to_select=i, refit a
linear model on the selected features, and append one log entry; the
selected feature names and the test RMSE for each i are the opaque library
outcomes features_of and rmse_of. -/
def stepwise_log (features_of : ℕ → List String) (rmse_of : ℕ → ℚ) :
    List StepwiseEntry :=
  (pyRange 1 7).map fun i => ⟨i, features_of i, rmse_of i⟩

/-- C9: the loop evaluates exactly the feature counts 1 through 6 in
increasing order, producing a log of exactly 6 entries, one per feature
count, and never evaluates a model with 7 features. -/
theorem C9_loop_range (features_of : ℕ → List String) (rmse_of : ℕ → ℚ) :
    pyRange 1 7 = [1, 2, 3, 4, 5, 6] ∧
    (stepwise_log features_of rmse_of).length = 6 ∧
    (stepwise_log features_of rmse_of).map StepwiseEntry.n_features =
      [1, 2, 3, 4, 5, 6] ∧
    ∀ e ∈ stepwise_log features_of rmse_of, e.n_features ≠ 7 := by
  refine ⟨rfl, rfl, rfl, ?_⟩
  intro e he
  rw [stepwise_log] at he
  obtain ⟨i, hi, rfl⟩ := List.mem_map.mp he
  have hmem : i ∈ [1, 2, 3, 4, 5, 6] := by
    rw [show pyRange 1 7 = [1, 2, 3, 4, 5, 6] from rfl] at hi
    exact hi
  fin_cases hmem <;> simp

/-- C9 witnessed on concrete library outcomes and a concrete log entry. -/
theorem C9_loop_range_witness :
    (⟨3, [], 0⟩ : StepwiseEntry).n_features ≠ 7 :=
  (C9_loop_range (fun _ => []) (fun _ => 0)).2.2.2 ⟨3, [], 0⟩ (by decide)

/-- One train_test_split call site. -/
structure SplitCall where
  notebook : String
  test_size : ℚ
  random_state : ℕ
deriving DecidableEq

/-- Every train_test_split call site in the repository (the football-shots
notebook imports the function but never calls it).  Each passes
test_size=0.2, written 1/5, and random_state=42. -/
def splitCalls : List SplitCall :=
  [⟨"ames_housing/lasso.ipynb", 1/5, 42⟩,
   ⟨"ames_housing/stepwise_feature_selection.ipynb", 1/5, 42⟩,
   ⟨"micro_mortgages/stacking.ipynb", 1/5, 42⟩]

/-- The test-partition size sklearn computes: ceil(test_size * n) rows. -/
def testCount (test_size : ℚ) (n : ℕ) : ℕ := ⌈test_size * n⌉₊

/-- sklearn.model_selection.train_test_split with the default shuffle=True:
the generator seeded with random_state yields a permutation of the row
indices (modelled by the perm parameter, a function of the seed and the row
count); the first ceil(test_size*n) shuffled rows form the test partition
and the remaining rows the training partition. -/
def train_test_split {α : Type} (perm : ℕ → ℕ → List ℕ)
    (rows : List α) (test_size : ℚ) (random_state : ℕ) : List α × List α :=
  let idx := perm random_state rows.length
  let shuffled := idx.filterMap fun i => rows[i]?
  let nt := testCount test_size rows.length
  (shuffled.drop nt, shuffled.take nt)

theorem length_filterMap_of_all_isSome {α β : Type} (f : α → Option β)
    (l : List α) (h : ∀ a ∈ l, (f a).isSome) :
    (l.filterMap f).length = l.length := by
  induction l with
  | nil => rfl
  | cons a t ih =>
    rw [List.filterMap_cons]
    cases hfa : f a with
    | none =>
      exact absurd (h a (List.mem_cons_self a t)) (by rw [hfa]; simp)
    | some b =>
      rw [List.length_cons, List.length_cons,
        ih fun x hx => h x (List.mem_cons_of_mem a hx)]

/-- C10: every train_test_split call in the repository passes test_size=1/5
and random_state=42; any two call sites therefore produce identical train
and test partitions on the same input data under the same seeded generator;
whenever the seeded generator yields a permutation of the row indices, the
test partition holds ceil(1/5*n) of the n rows, which is exactly 20% when
n is a multiple of 5. -/
theorem C10_deterministic_split :
    (∀ c ∈ splitCalls, c.test_size = 1/5 ∧ c.random_state = 42) ∧
    (∀ (α : Type) (perm : ℕ → ℕ → List ℕ) (rows1 rows2 : List α)
        (c1 c2 : SplitCall), c1 ∈ splitCalls → c2 ∈ splitCalls →
      rows1 = rows2 →
      train_test_split perm rows1 c1.test_size c1.random_state =
        train_test_split perm rows2 c2.test_size c2.random_state) ∧
    (∀ (α : Type) (perm : ℕ → ℕ → List ℕ) (rows : List α),
      (perm 42 rows.length).Perm (List.range rows.length) →
      (train_test_split perm rows (1/5) 42).2.length =
        testCount (1/5) rows.length) ∧
    (∀ n : ℕ, testCount (1/5) (5 * n) = n) := by
  have hsites : ∀ c ∈ splitCalls, c.test_size = 1/5 ∧ c.random_state = 42 := by
    intro c hc
    fin_cases hc <;> exact ⟨rfl, rfl⟩
  refine ⟨hsites, ?_, ?_, ?_⟩
  · intro α perm rows1 rows2 c1 c2 hc1 hc2 hrows
    obtain ⟨ht1, hr1⟩ := hsites c1 hc1
    obtain ⟨ht2, hr2⟩ := hsites c2 hc2
    rw [ht1, hr1, ht2, hr2, hrows]
  · intro α perm rows hp
    have hplen : (perm 42 rows.length).length = rows.length :=
      hp.length_eq.trans (List.length_range rows.length)
    have hsome : ∀ i ∈ perm 42 rows.length, (rows[i]?).isSome := by
      intro i hi
      have : i < rows.length := List.mem_range.mp (hp.subset hi)
      rw [List.getElem?_eq_getElem this]
      rfl
    have hlen : ((perm 42 rows.length).filterMap fun i => rows[i]?).length =
        rows.length :=
      (length_filterMap_of_all_isSome _ _ hsome).trans hplen
    have hle : testCount (1/5) rows.length ≤ rows.length := by
      rw [testCount]
      refine Nat.ceil_le.mpr ?_
      have : (0 : ℚ) ≤ (rows.length : ℚ) := Nat.cast_nonneg _
      linarith
    show (List.take _ _).length = _
    rw [List.length_take, hlen]
    exact Nat.min_eq_left hle
  · intro n
    rw [testCount]
    have : (1/5 : ℚ) * ((5 * n : ℕ) : ℚ) = (n : ℚ) := by
      push_cast
      ring
    rw [this, Nat.ceil_natCast]

/-- C10 witnessed: the lasso call site has the pinned parameters; on five
concrete rows with a concrete index permutation the test partition has
ceil(1/5*5) = 1 row; and 20% of 5*3 rows is 3 rows. -/
theorem C10_deterministic_split_witness :
    ((⟨"ames_housing/lasso.ipynb", 1/5, 42⟩ : SplitCall).test_size = 1/5 ∧
      (⟨"ames_housing/lasso.ipynb", 1/5, 42⟩ : SplitCall).random_state = 42) ∧
    (train_test_split (fun _ n => (List.range n).reverse)
        [10, 20, 30, 40, 50] (1/5) 42).2.length =
      testCount (1/5) ([10, 20, 30, 40, 50] : List ℕ).length ∧
    testCount (1/5) (5 * 3) = 3 :=
  ⟨C10_deterministic_split.1 ⟨"ames_housing/lasso.ipynb", 1/5, 42⟩
     (List.mem_cons_self _ _),
   C10_deterministic_split.2.2.1 ℕ (fun _ n => (List.range n).reverse)
     [10, 20, 30, 40, 50] (List.reverse_perm (List.range _)),
   C10_deterministic_split.2.2.2 3⟩
